import Mathlib

/-!
# Verification of the openclaw-chrome-bridge relay

Shallow embedding of the relay's persistence layer (Cloudflare D1 tables),
the credential operations (pair/start, pair/complete, token refresh, the
Stripe webhook) and the self-hosted router's in-memory state (agent
registry and per-agent offline queues), together with proofs of the
spec's testable properties over these definitions.

Tables are modelled as lists of rows; a SQL `DELETE ... WHERE` is a
`filter`, an `INSERT` an append, an `UPDATE` a `map`, and a D1 `batch`
is a single state transition.  Randomly generated values (tokens, device
ids, pairing codes) and digests enter the model as explicit arguments.
Unix timestamps are `Nat` seconds (milliseconds in the router, which is
what `Date.now()` yields there).
-/

/-- Row of the `refresh_tokens` table (`token_hash, device_id, agent_id,
expires_at`). -/
structure RefreshTokenRow where
  token_hash : String
  device_id : String
  agent_id : String
  expires_at : Nat
deriving Repr, DecidableEq

/-- Row of the `devices` table. -/
structure DeviceRow where
  id : String
  label : String
  agent_id : String
  tenant_id : Option String
  last_seen_at : Nat
deriving Repr, DecidableEq

/-- Row of the `agents` table (secret stored as digest). -/
structure AgentRow where
  id : String
  display_name : String
  secret_hash : String
  tenant_id : Option String
deriving Repr, DecidableEq

/-- Row of the `pairings` table. -/
structure PairingRow where
  code : String
  agent_id : String
  expires_at : Nat
  attempts : Nat
deriving Repr, DecidableEq

/-- Row of the `accounts` table (billing identity). -/
structure AccountRow where
  id : String
  email : String
  stripe_customer_id : Option String
  stripe_subscription_id : Option String
  plan : String
  subscription_status : String
deriving Repr, DecidableEq

/-- The D1 database state used by the relay routes: each field is one
table, modelled as the list of its rows.  `account_agents` is the
many-to-many link table keyed by `(account_id, agent_id)`. -/
structure D1State where
  agents : List AgentRow
  pairings : List PairingRow
  devices : List DeviceRow
  refresh_tokens : List RefreshTokenRow
  account_agents : List (String × String)
deriving Repr, DecidableEq

/-- Constant `CONFIG.JWT.ACCESS_TOKEN_TTL` — 15 minutes. -/
def ACCESS_TOKEN_TTL : Nat := 15 * 60

/-- Constant `CONFIG.JWT.REFRESH_TOKEN_TTL` — 30 days. -/
def REFRESH_TOKEN_TTL : Nat := 30 * 24 * 60 * 60

/-- Constant `CONFIG.PAIRING.CODE_TTL` — 10 minutes. -/
def CODE_TTL : Nat := 10 * 60

/-- Constant `CONFIG.PAIRING.MAX_ATTEMPTS`. -/
def MAX_ATTEMPTS : Nat := 5

/-- Constant `FREE_AGENT_LIMIT` from `auth/account.ts`. -/
def FREE_AGENT_LIMIT : Nat := 1

/-- The claims carried by an access JWT as built by `createAccessToken`
in `auth/tokens.ts`: subject is the device id, plus the `agent_id`
claim and the optional `tenant_id` claim.  The HMAC signature itself is
outside the model; the payload is what the claims are about. -/
structure AccessTokenClaims where
  sub : String
  agent_id : String
  tenant_id : Option String
deriving Repr, DecidableEq

/-- Function `createAccessToken(deviceId, agentId, tenantId, secret)` — builds the
JWT payload with `sub = deviceId` and the `agent_id` claim. -/
def createAccessToken (deviceId agentId : String) (tenantId : Option String) :
    AccessTokenClaims :=
  { sub := deviceId, agent_id := agentId, tenant_id := tenantId }

/-- The `SELECT ... FROM refresh_tokens rt JOIN devices d ON
rt.device_id = d.id WHERE rt.token_hash = ? AND rt.expires_at > ?`
query at the head of `refreshAccessToken`. -/
def findRefreshJoinDevice (rts : List RefreshTokenRow) (devs : List DeviceRow)
    (tokenHash : String) (now : Nat) : Option (RefreshTokenRow × DeviceRow) :=
  match rts.find? (fun rt => rt.token_hash == tokenHash && decide (now < rt.expires_at)) with
  | none => none
  | some rt =>
    match devs.find? (fun d => d.id == rt.device_id) with
    | none => none
    | some d => some (rt, d)

/-- Successful result of `refreshAccessToken`. -/
structure RefreshResult where
  accessToken : AccessTokenClaims
  refreshToken : String
  expiresIn : Nat
deriving Repr, DecidableEq

/-- Function `refreshAccessToken(db, refreshToken, secret)` from `auth/tokens.ts`.
The presented token's digest is `tokenHash`; the freshly generated
successor token and its digest are the arguments `newToken` /
`newTokenHash` (the code computes them by `generateRefreshToken` and
`hashToken`).  Returns `none` (the route answers 401) when no unexpired
row matches; otherwise performs the single-batch rotation —
`DELETE FROM refresh_tokens WHERE token_hash = ?` plus the insert of the
successor row — and stamps the device's `last_seen_at`. -/
def refreshAccessToken (s : D1State) (tokenHash newTokenHash newToken : String)
    (now : Nat) : Option RefreshResult × D1State :=
  match findRefreshJoinDevice s.refresh_tokens s.devices tokenHash now with
  | none => (none, s)
  | some (rt, d) =>
    let accessToken := createAccessToken rt.device_id rt.agent_id d.tenant_id
    let rts' := (s.refresh_tokens.filter (fun r => !(r.token_hash == tokenHash))) ++
      [{ token_hash := newTokenHash, device_id := rt.device_id,
         agent_id := rt.agent_id, expires_at := now + REFRESH_TOKEN_TTL }]
    let devs' := s.devices.map (fun dv =>
      if dv.id == rt.device_id then { dv with last_seen_at := now } else dv)
    (some { accessToken := accessToken, refreshToken := newToken,
            expiresIn := ACCESS_TOKEN_TTL },
     { s with refresh_tokens := rts', devices := devs' })

/-- A refresh token digest is valid in a table when some row carries it
unexpired. -/
def tokenHashValid (rts : List RefreshTokenRow) (h : String) (now : Nat) : Bool :=
  rts.any (fun rt => rt.token_hash == h && decide (now < rt.expires_at))

theorem tokenHashValid_eq_false_iff (rts : List RefreshTokenRow) (h : String)
    (now : Nat) :
    tokenHashValid rts h now = false ↔
      ∀ rt ∈ rts, rt.token_hash = h → ¬ now < rt.expires_at := by
  simp [tokenHashValid]

theorem find?_refresh_none_of_absent (rts : List RefreshTokenRow) (h : String)
    (now : Nat) (habs : ∀ rt ∈ rts, rt.token_hash ≠ h) :
    rts.find? (fun rt => rt.token_hash == h && decide (now < rt.expires_at)) = none := by
  apply List.find?_eq_none.2
  intro rt hmem
  simp only [Bool.and_eq_true, beq_iff_eq, decide_eq_true_eq, not_and]
  intro hh
  exact absurd hh (habs rt hmem)

theorem findRefreshJoinDevice_some_spec (rts : List RefreshTokenRow)
    (devs : List DeviceRow) (h : String) (now : Nat) (rt : RefreshTokenRow)
    (d : DeviceRow) (hfind : findRefreshJoinDevice rts devs h now = some (rt, d)) :
    rt ∈ rts ∧ rt.token_hash = h ∧ now < rt.expires_at ∧ d ∈ devs ∧
      d.id = rt.device_id := by
  unfold findRefreshJoinDevice at hfind
  cases hrt : rts.find? (fun rt => rt.token_hash == h && decide (now < rt.expires_at)) with
  | none => rw [hrt] at hfind; exact absurd hfind (by simp)
  | some rt0 =>
    rw [hrt] at hfind
    dsimp only at hfind
    cases hd : devs.find? (fun dv => dv.id == rt0.device_id) with
    | none => rw [hd] at hfind; exact absurd hfind (by simp)
    | some d0 =>
      rw [hd] at hfind
      dsimp only at hfind
      injection hfind with hp
      injection hp with ha hb
      subst ha; subst hb
      have hmem := List.mem_of_find?_eq_some hrt
      have hprop := List.find?_some hrt
      have hdm := List.mem_of_find?_eq_some hd
      have hdp := List.find?_some hd
      simp only [Bool.and_eq_true, beq_iff_eq, decide_eq_true_eq] at hprop hdp
      exact ⟨hmem, hprop.1, hprop.2, hdm, hdp⟩

theorem refreshAccessToken_success_state (s : D1State)
    (tokenHash newTokenHash newToken : String) (now : Nat) (res : RefreshResult)
    (s' : D1State)
    (hrun : refreshAccessToken s tokenHash newTokenHash newToken now = (some res, s')) :
    ∃ rt d,
      findRefreshJoinDevice s.refresh_tokens s.devices tokenHash now = some (rt, d) ∧
      s'.refresh_tokens =
        (s.refresh_tokens.filter (fun r => !(r.token_hash == tokenHash))) ++
          [{ token_hash := newTokenHash, device_id := rt.device_id,
             agent_id := rt.agent_id, expires_at := now + REFRESH_TOKEN_TTL }] ∧
      res = { accessToken := createAccessToken rt.device_id rt.agent_id d.tenant_id,
              refreshToken := newToken, expiresIn := ACCESS_TOKEN_TTL } ∧
      s'.devices = s.devices.map (fun dv =>
        if dv.id == rt.device_id then { dv with last_seen_at := now } else dv) ∧
      s'.agents = s.agents ∧ s'.pairings = s.pairings ∧
      s'.account_agents = s.account_agents := by
  unfold refreshAccessToken at hrun
  cases hfind : findRefreshJoinDevice s.refresh_tokens s.devices tokenHash now with
  | none => rw [hfind] at hrun; exact absurd hrun (by simp)
  | some p =>
    obtain ⟨rt, d⟩ := p
    rw [hfind] at hrun
    dsimp only at hrun
    have hs : s' = { s with
        refresh_tokens := (s.refresh_tokens.filter (fun r => !(r.token_hash == tokenHash))) ++
          [{ token_hash := newTokenHash, device_id := rt.device_id,
             agent_id := rt.agent_id, expires_at := now + REFRESH_TOKEN_TTL }],
        devices := s.devices.map (fun dv =>
          if dv.id == rt.device_id then { dv with last_seen_at := now } else dv) } :=
      (congrArg Prod.snd hrun).symm
    have hr := congrArg Prod.fst hrun
    dsimp only at hr
    injection hr with hres
    subst hs
    exact ⟨rt, d, rfl, rfl, hres.symm, rfl, rfl, rfl, rfl⟩

theorem refreshAccessToken_rotated_absent (s : D1State)
    (tokenHash newTokenHash newToken : String) (now : Nat) (res : RefreshResult)
    (s' : D1State)
    (hrun : refreshAccessToken s tokenHash newTokenHash newToken now = (some res, s'))
    (hfresh : newTokenHash ≠ tokenHash) :
    ∀ r ∈ s'.refresh_tokens, r.token_hash ≠ tokenHash := by
  obtain ⟨rt, d, hfind, hrts, -⟩ :=
    refreshAccessToken_success_state s tokenHash newTokenHash newToken now res s' hrun
  intro r hmem
  rw [hrts] at hmem
  rcases List.mem_append.1 hmem with hin | hin
  · have := List.of_mem_filter hin
    simpa using this
  · have hr : r = { token_hash := newTokenHash, device_id := rt.device_id,
                    agent_id := rt.agent_id, expires_at := now + REFRESH_TOKEN_TTL } := by
      simpa using hin
    rw [hr]
    exact hfresh

/-- A small concrete store used to instantiate the token theorems: one
device `dev1` paired to agent `A1`, one live refresh-token digest `h1`. -/
def sampleStore : D1State :=
  { agents := [{ id := "A1", display_name := "Agent One",
                 secret_hash := "sh", tenant_id := none }],
    pairings := [],
    devices := [{ id := "dev1", label := "work", agent_id := "A1",
                  tenant_id := none, last_seen_at := 0 }],
    refresh_tokens := [{ token_hash := "h1", device_id := "dev1",
                         agent_id := "A1", expires_at := 100 }],
    account_agents := [] }

/-- C1: once `refreshAccessToken` has accepted a refresh token, the
rotation is the single batch that deletes the presented digest's row
and inserts the successor's row; before the batch the successor digest
is not valid, after it the presented digest is not valid at any time,
and presenting the same refresh token again returns `none`, which the
token route reports as 401 `UNAUTHORIZED`.  The two tokens are never
simultaneously valid: the batch is one atomic state transition. -/
theorem refresh_rotation_atomic_single_use
    (s : D1State) (tokenHash newTokenHash newToken : String) (now : Nat)
    (res : RefreshResult) (s' : D1State)
    (hrun : refreshAccessToken s tokenHash newTokenHash newToken now = (some res, s'))
    (hfresh : newTokenHash ≠ tokenHash)
    (hnew : ∀ r ∈ s.refresh_tokens, r.token_hash ≠ newTokenHash) :
    tokenHashValid s.refresh_tokens newTokenHash now = false ∧
    (∀ now2, tokenHashValid s'.refresh_tokens tokenHash now2 = false) ∧
    (∀ nh2 nt2 now2, refreshAccessToken s' tokenHash nh2 nt2 now2 = (none, s')) := by
  have habs := refreshAccessToken_rotated_absent s tokenHash newTokenHash newToken
    now res s' hrun hfresh
  refine ⟨?_, ?_, ?_⟩
  · exact (tokenHashValid_eq_false_iff _ _ _).2
      (fun rt hmem hh => absurd hh (hnew rt hmem))
  · intro now2
    exact (tokenHashValid_eq_false_iff _ _ _).2
      (fun rt hmem hh _ => absurd hh (habs rt hmem))
  · intro nh2 nt2 now2
    have hnone : findRefreshJoinDevice s'.refresh_tokens s'.devices tokenHash now2 = none := by
      unfold findRefreshJoinDevice
      rw [find?_refresh_none_of_absent s'.refresh_tokens tokenHash now2 habs]
    unfold refreshAccessToken
    rw [hnone]

/-- Instantiation of the rotation theorem on `sampleStore`: rotating
digest `h1` into `h2` and then presenting `h1` a second time yields
`none` and leaves the store untouched. -/
theorem refresh_rotation_atomic_single_use_witness :
    refreshAccessToken (refreshAccessToken sampleStore "h1" "h2" "t2" 10).2
        "h1" "h3" "t3" 20 =
      (none, (refreshAccessToken sampleStore "h1" "h2" "t2" 10).2) := by
  exact (refresh_rotation_atomic_single_use sampleStore "h1" "h2" "t2" 10
    _ _ rfl (by decide) (by decide)).2.2 "h3" "t3" 20

/-- C9: the rotation preserves the token's binding — the successor row
keeps the presented row's `device_id` and `agent_id`, the new access
token's subject is that `device_id` with the same `agent_id` claim, and
the `refresh_tokens` table changes only by deleting the presented row's
digest and inserting the successor row. -/
theorem refresh_preserves_binding_and_frame
    (s : D1State) (tokenHash newTokenHash newToken : String) (now : Nat)
    (res : RefreshResult) (s' : D1State) (rt : RefreshTokenRow) (d : DeviceRow)
    (hrun : refreshAccessToken s tokenHash newTokenHash newToken now = (some res, s'))
    (hfind : findRefreshJoinDevice s.refresh_tokens s.devices tokenHash now = some (rt, d)) :
    res.accessToken.sub = rt.device_id ∧
    res.accessToken.agent_id = rt.agent_id ∧
    ({ token_hash := newTokenHash, device_id := rt.device_id,
       agent_id := rt.agent_id,
       expires_at := now + REFRESH_TOKEN_TTL } : RefreshTokenRow) ∈ s'.refresh_tokens ∧
    (∀ r ∈ s.refresh_tokens, r.token_hash ≠ tokenHash → r ∈ s'.refresh_tokens) ∧
    (∀ r ∈ s'.refresh_tokens, r ∈ s.refresh_tokens ∨
      r = { token_hash := newTokenHash, device_id := rt.device_id,
            agent_id := rt.agent_id, expires_at := now + REFRESH_TOKEN_TTL }) := by
  obtain ⟨rt0, d0, hfind0, hrts, hres, -, -, -, -⟩ :=
    refreshAccessToken_success_state s tokenHash newTokenHash newToken now res s' hrun
  rw [hfind0] at hfind
  injection hfind with hp
  injection hp with ha hb
  subst ha; subst hb
  refine ⟨by simp [hres, createAccessToken], by simp [hres, createAccessToken], ?_, ?_, ?_⟩
  · rw [hrts]
    exact List.mem_append_right _ (by simp)
  · intro r hmem hne
    rw [hrts]
    refine List.mem_append_left _ (List.mem_filter.2 ⟨hmem, ?_⟩)
    simpa using hne
  · intro r hmem
    rw [hrts] at hmem
    rcases List.mem_append.1 hmem with hin | hin
    · exact Or.inl (List.mem_of_mem_filter hin)
    · exact Or.inr (by simpa using hin)

/-- Instantiation of the binding/frame theorem on `sampleStore`: the
successor row of the `h1 → h2` rotation keeps `dev1`/`A1`, and the new
access token's subject is `dev1` with agent claim `A1`. -/
theorem refresh_preserves_binding_and_frame_witness :
    ((refreshAccessToken sampleStore "h1" "h2" "t2" 10).1.map
        (fun r => (r.accessToken.sub, r.accessToken.agent_id))) = some ("dev1", "A1") ∧
    ({ token_hash := "h2", device_id := "dev1", agent_id := "A1",
       expires_at := 10 + REFRESH_TOKEN_TTL } : RefreshTokenRow) ∈
      ((refreshAccessToken sampleStore "h1" "h2" "t2" 10).2).refresh_tokens := by
  have h := refresh_preserves_binding_and_frame sampleStore "h1" "h2" "t2" 10
    { accessToken := { sub := "dev1", agent_id := "A1", tenant_id := none },
      refreshToken := "t2", expiresIn := ACCESS_TOKEN_TTL }
    (refreshAccessToken sampleStore "h1" "h2" "t2" 10).2
    { token_hash := "h1", device_id := "dev1", agent_id := "A1", expires_at := 100 }
    { id := "dev1", label := "work", agent_id := "A1", tenant_id := none, last_seen_at := 0 }
    (by rfl) (by rfl)
  exact ⟨by rfl, h.2.2.1⟩

/-- Query `COUNT(*) FROM account_agents WHERE account_id = ?` (used by
`canAccountAddAgent` and `getAgentUsage` in `auth/account.ts`). -/
def countAccountAgents (links : List (String × String)) (accountId : String) : Nat :=
  (links.filter (fun l => l.1 == accountId)).length

/-- The paid-plan test from `auth/account.ts`:
`account.plan === 'pro' && ['active','trialing','past_due'].includes(status)`. -/
def isPaidAccount (a : AccountRow) : Bool :=
  a.plan == "pro" && (["active", "trialing", "past_due"].contains a.subscription_status)

/-- Function `canAccountAddAgent(db, account)` from `auth/account.ts`: a paid
account always may; otherwise the count of linked agents must be below
`FREE_AGENT_LIMIT`. -/
def canAccountAddAgent (links : List (String × String)) (a : AccountRow) : Bool :=
  if isPaidAccount a then true
  else countAccountAgents links a.id < FREE_AGENT_LIMIT

/-- Query `SELECT 1 FROM account_agents WHERE account_id = ? AND agent_id = ?
LIMIT 1` — the already-linked test in the pair-complete handler. -/
def accountAgentLinked (links : List (String × String))
    (accountId agentId : String) : Bool :=
  links.contains (accountId, agentId)

/-- Outcome of `POST /api/pair/start` (`routes/pair.ts`, Cloudflare). -/
inductive PairStartOutcome where
  | unauthorized
  | rateLimited
  | ok (code : String) (expires_at : Nat) (agent_id : String)
deriving Repr, DecidableEq

/-- The `/api/pair/start` handler: after the agent-secret check and the
per-IP rate check (both passed in as booleans, their outcomes), it
upserts the agent (`INSERT OR REPLACE INTO agents`) and then runs the
batch `DELETE FROM pairings WHERE agent_id = ?` + `INSERT INTO
pairings` as one transition.  The freshly generated code is the `code`
argument. -/
def pairStart (s : D1State) (agent_id display_name : String)
    (tenant_id : Option String) (secretHash code : String)
    (secretOk rateAllowed : Bool) (now : Nat) : PairStartOutcome × D1State :=
  if !secretOk then (.unauthorized, s)
  else if !rateAllowed then (.rateLimited, s)
  else
    let agents' := (s.agents.filter (fun a => !(a.id == agent_id))) ++
      [{ id := agent_id, display_name := display_name,
         secret_hash := secretHash, tenant_id := tenant_id }]
    let pairings' := (s.pairings.filter (fun p => !(p.agent_id == agent_id))) ++
      [{ code := code, agent_id := agent_id,
         expires_at := now + CODE_TTL, attempts := 0 }]
    (.ok code (now + CODE_TTL) agent_id,
     { s with agents := agents', pairings := pairings' })

/-- The 200 body of `POST /api/pair/complete`. -/
structure PairCompleteResp where
  refresh_token : String
  access_token : AccessTokenClaims
  agent_id : String
  agent_display_name : String
  device_id : String
  expires_in : Nat
deriving Repr, DecidableEq

/-- Outcome of `POST /api/pair/complete`: 429, 400 (invalid/expired
code), 400 (too many attempts), 402 (free-plan limit), or 200. -/
inductive PairCompleteOutcome where
  | rateLimited
  | invalidCode
  | tooManyAttempts
  | freePlanLimit
  | ok (resp : PairCompleteResp)
deriving Repr, DecidableEq

/-- The `SELECT ... FROM pairings p JOIN agents a ON p.agent_id = a.id
WHERE p.code = ? AND p.expires_at > ?` query of the complete handler. -/
def findPairingJoinAgent (ps : List PairingRow) (ags : List AgentRow)
    (code : String) (now : Nat) : Option (PairingRow × AgentRow) :=
  match ps.find? (fun p => p.code == code && decide (now < p.expires_at)) with
  | none => none
  | some p =>
    match ags.find? (fun a => a.id == p.agent_id) with
    | none => none
    | some a => some (p, a)

/-- The `/api/pair/complete` handler (`routes/pair.ts`, Cloudflare).
`account` is the result of `getAccountFromBearer` (the active account
session, if any); `deviceId`, `refreshToken` and its digest
`refreshTokenHash` are the freshly generated values.  Steps, in source
order: rate check; pairing lookup (expired or absent → 400); attempts
guard; attempts increment; freemium gate (402 when the account cannot
add an agent and is not already linked to this one); then the batch
creating the device and deleting the consumed pairing, the
`INSERT OR IGNORE` of the account-agent link, and the storing of the
refresh-token digest. -/
def pairComplete (s : D1State) (account : Option AccountRow)
    (code device_label deviceId refreshToken refreshTokenHash : String)
    (rateAllowed : Bool) (now : Nat) : PairCompleteOutcome × D1State :=
  if !rateAllowed then (.rateLimited, s)
  else match findPairingJoinAgent s.pairings s.agents code now with
  | none => (.invalidCode, s)
  | some (p, a) =>
    if MAX_ATTEMPTS ≤ p.attempts then (.tooManyAttempts, s)
    else
      let s1 := { s with pairings := s.pairings.map (fun (q : PairingRow) =>
        if q.code == code then { q with attempts := q.attempts + 1 } else q) }
      let quotaBlocked :=
        match account with
        | none => false
        | some acct =>
          !(canAccountAddAgent s1.account_agents acct) &&
          !(accountAgentLinked s1.account_agents acct.id p.agent_id)
      if quotaBlocked then (.freePlanLimit, s1)
      else
        let s2 := { s1 with
          devices := s1.devices ++
            ([{ id := deviceId, label := device_label, agent_id := p.agent_id,
                tenant_id := a.tenant_id, last_seen_at := now }] : List DeviceRow),
          pairings := s1.pairings.filter (fun (q : PairingRow) => !(q.code == code)) }
        let s3 :=
          match account with
          | none => s2
          | some acct =>
            if accountAgentLinked s2.account_agents acct.id p.agent_id then s2
            else { s2 with account_agents :=
              s2.account_agents ++ [(acct.id, p.agent_id)] }
        let s4 := { s3 with refresh_tokens :=
          (s3.refresh_tokens.filter (fun (r : RefreshTokenRow) =>
            !(r.token_hash == refreshTokenHash))) ++
          ([{ token_hash := refreshTokenHash, device_id := deviceId,
              agent_id := p.agent_id,
              expires_at := now + REFRESH_TOKEN_TTL }] : List RefreshTokenRow) }
        (.ok { refresh_token := refreshToken,
               access_token := createAccessToken deviceId p.agent_id a.tenant_id,
               agent_id := p.agent_id, agent_display_name := a.display_name,
               device_id := deviceId, expires_in := ACCESS_TOKEN_TTL }, s4)

theorem pairComplete_quota_shape (s : D1State) (account : Option AccountRow)
    (code device_label deviceId rTok rHash : String) (now : Nat)
    (p : PairingRow) (a : AgentRow)
    (hfind : findPairingJoinAgent s.pairings s.agents code now = some (p, a))
    (hatt : p.attempts < MAX_ATTEMPTS) :
    (pairComplete s account code device_label deviceId rTok rHash true now).1 =
      if (match account with
          | none => false
          | some acct =>
            !(canAccountAddAgent s.account_agents acct) &&
            !(accountAgentLinked s.account_agents acct.id p.agent_id)) then
        PairCompleteOutcome.freePlanLimit
      else .ok { refresh_token := rTok,
                 access_token := createAccessToken deviceId p.agent_id a.tenant_id,
                 agent_id := p.agent_id, agent_display_name := a.display_name,
                 device_id := deviceId, expires_in := ACCESS_TOKEN_TTL } := by
  unfold pairComplete
  dsimp only [Bool.not_true]
  rw [if_neg (by simp)]
  rw [hfind]
  dsimp only
  rw [if_neg (Nat.not_le.mpr hatt)]
  by_cases hq : (match account with
      | none => false
      | some acct =>
        !(canAccountAddAgent s.account_agents acct) &&
        !(accountAgentLinked s.account_agents acct.id p.agent_id)) = true
  · simp only [if_pos hq]
  · simp only [if_neg hq]

/-- C3: with an active account session and a consumable pairing code, a
paid `pro` account (status `active`, `trialing` or `past_due`) is never
refused on quota grounds; a free-allowance account is refused with 402
`FREE_PLAN_LIMIT` exactly when it already has at least
`FREE_AGENT_LIMIT` linked agents and the requested agent is not already
linked; and when the agent is already linked the request succeeds. -/
theorem pairComplete_freemium (s : D1State) (acct : AccountRow)
    (code device_label deviceId rTok rHash : String) (now : Nat)
    (p : PairingRow) (a : AgentRow)
    (hfind : findPairingJoinAgent s.pairings s.agents code now = some (p, a))
    (hatt : p.attempts < MAX_ATTEMPTS) :
    (isPaidAccount acct = true →
      (pairComplete s (some acct) code device_label deviceId rTok rHash true now).1 =
        .ok { refresh_token := rTok,
              access_token := createAccessToken deviceId p.agent_id a.tenant_id,
              agent_id := p.agent_id, agent_display_name := a.display_name,
              device_id := deviceId, expires_in := ACCESS_TOKEN_TTL }) ∧
    (isPaidAccount acct = false →
      (((pairComplete s (some acct) code device_label deviceId rTok rHash true now).1 =
          .freePlanLimit) ↔
        (FREE_AGENT_LIMIT ≤ countAccountAgents s.account_agents acct.id ∧
         accountAgentLinked s.account_agents acct.id p.agent_id = false))) ∧
    (accountAgentLinked s.account_agents acct.id p.agent_id = true →
      (pairComplete s (some acct) code device_label deviceId rTok rHash true now).1 =
        .ok { refresh_token := rTok,
              access_token := createAccessToken deviceId p.agent_id a.tenant_id,
              agent_id := p.agent_id, agent_display_name := a.display_name,
              device_id := deviceId, expires_in := ACCESS_TOKEN_TTL }) := by
  have hshape := pairComplete_quota_shape s (some acct) code device_label deviceId
    rTok rHash now p a hfind hatt
  rw [hshape]
  dsimp only
  refine ⟨?_, ?_, ?_⟩
  · intro hpaid
    have hc : canAccountAddAgent s.account_agents acct = true := by
      simp [canAccountAddAgent, hpaid]
    simp [hc]
  · intro hfree
    have hc : canAccountAddAgent s.account_agents acct =
        decide (countAccountAgents s.account_agents acct.id < FREE_AGENT_LIMIT) := by
      simp [canAccountAddAgent, hfree]
    rw [hc]
    by_cases h1 : countAccountAgents s.account_agents acct.id < FREE_AGENT_LIMIT
    · cases h2 : accountAgentLinked s.account_agents acct.id p.agent_id <;>
        · simp [h1, h2]
          try omega
    · cases h2 : accountAgentLinked s.account_agents acct.id p.agent_id <;>
        · simp [h1, h2]
          try omega
  · intro hlink
    simp [hlink]

/-- Instantiation of the freemium theorem: a free account already
linked to `A1` is refused for agent `A2` (402), while a `pro`/`active`
account is not. -/
theorem pairComplete_freemium_witness :
    (pairComplete
        { agents := [{ id := "A2", display_name := "Two",
                       secret_hash := "sh", tenant_id := none }],
          pairings := [{ code := "CODE1", agent_id := "A2",
                         expires_at := 600, attempts := 0 }],
          devices := [], refresh_tokens := [],
          account_agents := [("acc1", "A1")] }
        (some { id := "acc1", email := "e", stripe_customer_id := none,
                stripe_subscription_id := none, plan := "free",
                subscription_status := "inactive" })
        "CODE1" "work" "d2" "rt" "rh" true 10).1 =
      PairCompleteOutcome.freePlanLimit := by
  have h := (pairComplete_freemium
    { agents := [{ id := "A2", display_name := "Two",
                   secret_hash := "sh", tenant_id := none }],
      pairings := [{ code := "CODE1", agent_id := "A2",
                     expires_at := 600, attempts := 0 }],
      devices := [], refresh_tokens := [],
      account_agents := [("acc1", "A1")] }
    { id := "acc1", email := "e", stripe_customer_id := none,
      stripe_subscription_id := none, plan := "free",
      subscription_status := "inactive" }
    "CODE1" "work" "d2" "rt" "rh" 10
    { code := "CODE1", agent_id := "A2", expires_at := 600, attempts := 0 }
    { id := "A2", display_name := "Two", secret_hash := "sh", tenant_id := none }
    (by decide) (by decide)).2.1 (by decide)
  exact h.2 (by decide)

theorem findPairingJoinAgent_none (ps : List PairingRow) (ags : List AgentRow)
    (code : String) (now : Nat)
    (h : ∀ p ∈ ps, p.code = code → ¬ now < p.expires_at) :
    findPairingJoinAgent ps ags code now = none := by
  unfold findPairingJoinAgent
  have hf : ps.find? (fun p => p.code == code && decide (now < p.expires_at)) = none := by
    apply List.find?_eq_none.2
    intro p hmem
    simp only [Bool.and_eq_true, beq_iff_eq, decide_eq_true_eq, not_and]
    exact h p hmem
  rw [hf]

theorem pairComplete_ok_no_code_left (s : D1State) (account : Option AccountRow)
    (code device_label deviceId rTok rHash : String) (now : Nat)
    (resp : PairCompleteResp) (s' : D1State)
    (hrun : pairComplete s account code device_label deviceId rTok rHash true now =
      (.ok resp, s')) :
    ∀ q ∈ s'.pairings, q.code ≠ code := by
  unfold pairComplete at hrun
  rw [if_neg (by simp)] at hrun
  cases hf : findPairingJoinAgent s.pairings s.agents code now with
  | none => rw [hf] at hrun; simp at hrun
  | some pa =>
    obtain ⟨p, a⟩ := pa
    rw [hf] at hrun
    dsimp only at hrun
    by_cases hatt : MAX_ATTEMPTS ≤ p.attempts
    · rw [if_pos hatt] at hrun; simp at hrun
    · rw [if_neg hatt] at hrun
      cases hq : (match account with
          | none => false
          | some acct =>
            !(canAccountAddAgent s.account_agents acct) &&
            !(accountAgentLinked s.account_agents acct.id p.agent_id)) with
      | true => simp only [hq] at hrun; simp at hrun
      | false =>
        simp only [hq, Bool.false_eq_true, if_false] at hrun
        have hs' := congrArg Prod.snd hrun
        dsimp only at hs'
        intro q hqmem
        rw [← hs'] at hqmem
        cases account with
        | none =>
          dsimp only at hqmem
          have := List.of_mem_filter hqmem
          simpa using this
        | some acct =>
          dsimp only at hqmem
          by_cases hlink : accountAgentLinked s.account_agents acct.id p.agent_id = true
          · rw [if_pos hlink] at hqmem
            dsimp only at hqmem
            have := List.of_mem_filter hqmem
            simpa using this
          · rw [if_neg hlink] at hqmem
            dsimp only at hqmem
            have := List.of_mem_filter hqmem
            simpa using this

/-- C7: the pair-complete handler refuses consumption — returning 400
and leaving the store untouched, issuing no tokens and creating no
device — whenever every pairing row for the code is expired
(`expires_at ≤ now`, so the lookup finds nothing) or the found row's
attempts counter has reached `MAX_ATTEMPTS`; and on a successful
consumption the pairing row is deleted in the same batch that creates
the device, so presenting the same code a second time is refused as
invalid. -/
theorem pairComplete_refusal_and_single_consumption
    (s : D1State) (account account2 : Option AccountRow)
    (code device_label dl2 deviceId dev2 rTok rt2 rHash rh2 : String)
    (now now2 : Nat) :
    ((∀ q ∈ s.pairings, q.code = code → q.expires_at ≤ now) →
      pairComplete s account code device_label deviceId rTok rHash true now =
        (.invalidCode, s)) ∧
    (∀ p a, findPairingJoinAgent s.pairings s.agents code now = some (p, a) →
      MAX_ATTEMPTS ≤ p.attempts →
      pairComplete s account code device_label deviceId rTok rHash true now =
        (.tooManyAttempts, s)) ∧
    (∀ resp s', pairComplete s account code device_label deviceId rTok rHash true now =
        (.ok resp, s') →
      pairComplete s' account2 code dl2 dev2 rt2 rh2 true now2 =
        (.invalidCode, s')) := by
  refine ⟨?_, ?_, ?_⟩
  · intro hexp
    have hf : findPairingJoinAgent s.pairings s.agents code now = none :=
      findPairingJoinAgent_none s.pairings s.agents code now
        (fun p hmem hc => Nat.not_lt.mpr (hexp p hmem hc))
    unfold pairComplete
    rw [if_neg (by simp), hf]
  · intro p a hf hatt
    unfold pairComplete
    rw [if_neg (by simp), hf]
    dsimp only
    rw [if_pos hatt]
  · intro resp s' hrun
    have hnone := pairComplete_ok_no_code_left s account code device_label deviceId
      rTok rHash now resp s' hrun
    have hf : findPairingJoinAgent s'.pairings s'.agents code now2 = none :=
      findPairingJoinAgent_none s'.pairings s'.agents code now2
        (fun p hmem hc => absurd hc (hnone p hmem))
    unfold pairComplete
    rw [if_neg (by simp), hf]

/-- Instantiation of the consumption theorem: consuming `CODE1` once
succeeds, consuming it again is refused as invalid. -/
theorem pairComplete_refusal_and_single_consumption_witness :
    pairComplete
        (pairComplete
          { agents := [{ id := "A2", display_name := "Two",
                         secret_hash := "sh", tenant_id := none }],
            pairings := [{ code := "CODE1", agent_id := "A2",
                           expires_at := 600, attempts := 0 }],
            devices := [], refresh_tokens := [], account_agents := [] }
          none "CODE1" "work" "d2" "rt" "rh" true 10).2
        none "CODE1" "work" "d3" "rt3" "rh3" true 20 =
      (PairCompleteOutcome.invalidCode,
        (pairComplete
          { agents := [{ id := "A2", display_name := "Two",
                         secret_hash := "sh", tenant_id := none }],
            pairings := [{ code := "CODE1", agent_id := "A2",
                           expires_at := 600, attempts := 0 }],
            devices := [], refresh_tokens := [], account_agents := [] }
          none "CODE1" "work" "d2" "rt" "rh" true 10).2) := by
  exact (pairComplete_refusal_and_single_consumption
    { agents := [{ id := "A2", display_name := "Two",
                   secret_hash := "sh", tenant_id := none }],
      pairings := [{ code := "CODE1", agent_id := "A2",
                     expires_at := 600, attempts := 0 }],
      devices := [], refresh_tokens := [], account_agents := [] }
    none none "CODE1" "work" "work" "d2" "d3" "rt" "rt3" "rh" "rh3" 10 20).2.2
    _ _ (by rfl)

/-- C8: issuing a pairing code runs `DELETE FROM pairings WHERE
agent_id = ?` and the insert of the fresh row as one batch (one
transition in the model), so immediately afterwards the agent's rows in
`pairings` are exactly the one new row — at most one live code per
agent — while other agents' rows are untouched. -/
theorem pairStart_at_most_one_live_code (s : D1State)
    (agent_id display_name : String) (tenant : Option String)
    (secretHash code : String) (now : Nat) :
    (((pairStart s agent_id display_name tenant secretHash code true true now).2).pairings.filter
        (fun p => p.agent_id == agent_id)) =
      [{ code := code, agent_id := agent_id,
         expires_at := now + CODE_TTL, attempts := 0 }] ∧
    (∀ p ∈ ((pairStart s agent_id display_name tenant secretHash code true true now).2).pairings,
      p.agent_id ≠ agent_id → p ∈ s.pairings) := by
  have hp : ((pairStart s agent_id display_name tenant secretHash code true true now).2).pairings =
      (s.pairings.filter (fun p => !(p.agent_id == agent_id))) ++
      [{ code := code, agent_id := agent_id,
         expires_at := now + CODE_TTL, attempts := 0 }] := rfl
  constructor
  · rw [hp]
    simp [List.filter_append, List.filter_filter]
  · intro p hmem hne
    rw [hp] at hmem
    rcases List.mem_append.1 hmem with hin | hin
    · exact List.mem_of_mem_filter hin
    · rw [List.mem_singleton] at hin
      rw [hin] at hne
      simp at hne

/-- Function `timingSafeEqualHex(a, b)` from `routes/billing.ts`: length check,
then one pass OR-accumulating the XOR of the code units; equal exactly
when the accumulator stays 0.  Strings enter as their code-unit
sequences. -/
def timingSafeEqualHex (a b : List Nat) : Bool :=
  if a.length != b.length then false
  else ((a.zip b).foldl (fun result p => result ||| (p.1 ^^^ p.2)) 0) == 0

theorem nat_lor_eq_zero (a b : Nat) : a ||| b = 0 ↔ a = 0 ∧ b = 0 := by
  constructor
  · intro h
    refine ⟨Nat.zero_of_testBit_eq_false fun i => ?_,
            Nat.zero_of_testBit_eq_false fun i => ?_⟩
    · have h2 := congrArg (fun n => Nat.testBit n i) h
      simp only [Nat.testBit_lor, Nat.zero_testBit, Bool.or_eq_false_iff] at h2
      exact h2.1
    · have h2 := congrArg (fun n => Nat.testBit n i) h
      simp only [Nat.testBit_lor, Nat.zero_testBit, Bool.or_eq_false_iff] at h2
      exact h2.2
  · rintro ⟨rfl, rfl⟩; rfl

theorem foldl_lor_xor_eq_zero (l : List (Nat × Nat)) (acc : Nat) :
    l.foldl (fun result p => result ||| (p.1 ^^^ p.2)) acc = 0 ↔
      acc = 0 ∧ ∀ p ∈ l, p.1 = p.2 := by
  induction l generalizing acc with
  | nil => simp
  | cons x xs ih =>
    simp only [List.foldl_cons, ih, nat_lor_eq_zero, Nat.xor_eq_zero, List.mem_cons]
    constructor
    · rintro ⟨⟨h1, h2⟩, h3⟩
      exact ⟨h1, fun p hp => hp.elim (fun he => he ▸ h2) (h3 p)⟩
    · rintro ⟨h1, h2⟩
      exact ⟨⟨h1, h2 x (Or.inl rfl)⟩, fun p hp => h2 p (Or.inr hp)⟩

theorem zip_fst_eq_snd_iff (a : List Nat) : ∀ (b : List Nat),
    a.length = b.length → ((∀ p ∈ a.zip b, p.1 = p.2) ↔ a = b) := by
  induction a with
  | nil =>
    intro b hlen
    cases b with
    | nil => simp
    | cons y ys => simp at hlen
  | cons x xs ih =>
    intro b hlen
    cases b with
    | nil => simp at hlen
    | cons y ys =>
      have hlen' : xs.length = ys.length := by simpa using hlen
      simp only [List.zip_cons_cons, List.mem_cons, List.cons.injEq]
      constructor
      · intro H
        refine ⟨H (x, y) (Or.inl rfl), ?_⟩
        exact (ih ys hlen').1 (fun p hp => H p (Or.inr hp))
      · rintro ⟨hxy, hxs⟩
        subst hxy
        subst hxs
        intro p hp
        rcases hp with rfl | hp2
        · rfl
        · exact ((ih xs rfl).2 rfl) p hp2

theorem timingSafeEqualHex_iff (a b : List Nat) :
    timingSafeEqualHex a b = true ↔ a = b := by
  unfold timingSafeEqualHex
  by_cases hlen : a.length = b.length
  · simp only [hlen, bne_self_eq_false, Bool.false_eq_true, if_false, beq_iff_eq,
      foldl_lor_xor_eq_zero]
    constructor
    · rintro ⟨-, h⟩
      exact (zip_fst_eq_snd_iff a b hlen).1 h
    · rintro rfl
      exact ⟨trivial, (zip_fst_eq_snd_iff a a rfl).2 rfl⟩
  · have hne : (a.length != b.length) = true := by
      simpa [bne_iff_ne] using hlen
    simp only [hne, if_true]
    constructor
    · intro h; exact absurd h (by simp)
    · rintro rfl; exact absurd rfl hlen

/-- The parsed shape of a Stripe webhook event as the handler reads it:
`checkout.session.completed` carries `metadata.account_id`, `customer`
and `subscription`; `customer.subscription.updated` and `.deleted` are
handled by one branch carrying `customer`, the subscription `id` and
`status` (defaulted to `inactive` when absent); anything else is
ignored. -/
inductive StripeEvent where
  | checkoutSessionCompleted (account_id customer subscription : Option String)
  | subscriptionChanged (customer subscription_id : Option String) (status : String)
  | otherEvent
deriving Repr, DecidableEq

/-- SQL `COALESCE(?, column)`. -/
def coalesce (v : Option String) (col : Option String) : Option String :=
  match v with
  | some x => some x
  | none => col

/-- The two `UPDATE accounts ...` statements of the webhook handler,
applied to the accounts table. -/
def applyStripeEvent (ev : StripeEvent) (accounts : List AccountRow) :
    List AccountRow :=
  match ev with
  | .checkoutSessionCompleted accountId customer subscription =>
    match accountId with
    | none => accounts
    | some aid =>
      accounts.map (fun a =>
        if a.id == aid then
          { a with stripe_customer_id := coalesce customer a.stripe_customer_id,
                   stripe_subscription_id :=
                     coalesce subscription a.stripe_subscription_id,
                   plan := "pro", subscription_status := "active" }
        else a)
  | .subscriptionChanged customer subscriptionId status =>
    match customer with
    | none => accounts
    | some cid =>
      let isPaid := ["active", "trialing", "past_due"].contains status
      accounts.map (fun a =>
        if a.stripe_customer_id == some cid then
          { a with stripe_subscription_id :=
                     coalesce subscriptionId a.stripe_subscription_id,
                   plan := if isPaid then "pro" else "free",
                   subscription_status := status }
        else a)
  | .otherEvent => accounts

/-- Endpoint `POST /api/billing/webhook/stripe` after header extraction: verify
the `v1` signature against the HMAC of `t-timestamp ++ "." ++ body`
(strings compared as code-unit sequences through `timingSafeEqualHex`);
on mismatch answer 401 touching nothing; otherwise parse the body and
apply the event's account updates (parse failure answers 500).  The
HMAC itself and the JSON parse are the uninterpreted arguments
`hmacHex` and `parseEvent`. -/
def webhookStripe (secret timestamp body : String) (signature : List Nat)
    (hmacHex : String → String → List Nat)
    (parseEvent : String → Option StripeEvent)
    (accounts : List AccountRow) : Nat × List AccountRow :=
  let signedPayload := timestamp ++ "." ++ body
  let expected := hmacHex secret signedPayload
  if !(timingSafeEqualHex signature expected) then (401, accounts)
  else
    match parseEvent body with
    | none => (500, accounts)
    | some ev => (200, applyStripeEvent ev accounts)

/-- C4: a webhook request whose `v1` signature differs from the
HMAC-SHA256 of `timestamp ++ "." ++ body` is answered 401 and the
accounts table is returned unchanged — every account keeps its `plan`,
`subscription_status` and Stripe ids, and no other write happens. -/
theorem webhook_bad_signature_rejected
    (secret timestamp body : String) (signature : List Nat)
    (hmacHex : String → String → List Nat)
    (parseEvent : String → Option StripeEvent)
    (accounts : List AccountRow)
    (hsig : signature ≠ hmacHex secret (timestamp ++ "." ++ body)) :
    webhookStripe secret timestamp body signature hmacHex parseEvent accounts =
      (401, accounts) := by
  unfold webhookStripe
  have hfalse : timingSafeEqualHex signature
      (hmacHex secret (timestamp ++ "." ++ body)) = false := by
    cases hb : timingSafeEqualHex signature
        (hmacHex secret (timestamp ++ "." ++ body)) with
    | false => rfl
    | true => exact absurd ((timingSafeEqualHex_iff _ _).1 hb) hsig
  simp [hfalse]

/-- Instantiation of the webhook theorem: a wrong one-byte signature is
refused with 401 and the single stored account is untouched. -/
theorem webhook_bad_signature_rejected_witness :
    webhookStripe "whsec" "1700000000" "body" [0]
        (fun _ _ => [1])
        (fun _ => some StripeEvent.otherEvent)
        [{ id := "acc1", email := "e", stripe_customer_id := none,
           stripe_subscription_id := none, plan := "free",
           subscription_status := "inactive" }] =
      (401, [{ id := "acc1", email := "e", stripe_customer_id := none,
               stripe_subscription_id := none, plan := "free",
               subscription_status := "inactive" }]) := by
  exact webhook_bad_signature_rejected "whsec" "1700000000" "body" [0]
    (fun _ _ => [1]) (fun _ => some StripeEvent.otherEvent)
    [{ id := "acc1", email := "e", stripe_customer_id := none,
       stripe_subscription_id := none, plan := "free",
       subscription_status := "inactive" }] (by decide)

/-- An incoming `chat.request` frame's validated fields: each is absent
(`none`) or present with a string value.  JS truthiness on a string
field is false for the empty string, which is what the handlers'
`!message.field` checks test. -/
structure ChatRequestMsg where
  request_id : Option String
  agent_id : Option String
  session_id : Option String
  text : Option String
deriving Repr, DecidableEq

/-- JS truthiness of an optional string: absent and `""` are falsy. -/
def truthy : Option String → Bool
  | none => false
  | some s => !(s == "")

/-- A WS `error` frame's `code` and `message`. -/
structure ErrorFrame where
  code : String
  message : String
deriving Repr, DecidableEq

/-- What the Cloudflare client connection does with a `chat.request`:
either send an error frame (its `sendError` always stamps code
`INVALID_MESSAGE`) or route the message onward to the MessageRouter. -/
inductive CFClientChatResult where
  | err (e : ErrorFrame)
  | routed (request_id agent_id session_id text device_id : String)
deriving Repr, DecidableEq

/-- Method `ClientConnection.handleChatRequest` from the Cloudflare relay:
truthiness check of the four required fields, then the 32 KiB text
bound, then the bound-agent check, then the forward to the router with
the device id stamped in. -/
def ClientConnection.handleChatRequest (clientAgentId deviceId : String)
    (m : ChatRequestMsg) : CFClientChatResult :=
  if !(truthy m.request_id) || !(truthy m.agent_id) ||
     !(truthy m.session_id) || !(truthy m.text) then
    .err { code := "INVALID_MESSAGE",
           message := "Missing required fields in chat.request" }
  else if 32 * 1024 < (m.text.getD "").length then
    .err { code := "INVALID_MESSAGE", message := "Message too large (max 32KB)" }
  else if !(m.agent_id.getD "" == clientAgentId) then
    .err { code := "INVALID_MESSAGE", message := "Unauthorized agent access" }
  else
    .routed (m.request_id.getD "") (m.agent_id.getD "") (m.session_id.getD "")
      (m.text.getD "") deviceId

/-- What the self-hosted client endpoint does with a `chat.request`:
an error frame, or the `message_sent` acknowledgement after a
successful `sendToAgent` (which enqueues when the agent is offline), or
the `AGENT_OFFLINE` error when `sendToAgent` fails. -/
inductive SHClientChatResult where
  | err (code : String) (message : String)
  | ackSent (request_id agent_id : String)
deriving Repr, DecidableEq

/-- The `chat.request` case of the self-hosted client endpoint
(`ws/client.ts`): truthiness check of the four fields, the
paired-agents check, then `sendToAgent`; `sendOk` is that call's
result. -/
def selfhostClientChatRequest (pairedAgents : List String) (sendOk : Bool)
    (m : ChatRequestMsg) : SHClientChatResult :=
  if !(truthy m.request_id) || !(truthy m.agent_id) ||
     !(truthy m.session_id) || !(truthy m.text) then
    .err "INVALID_MESSAGE"
      "Missing required fields: request_id, agent_id, session_id, text"
  else if !(pairedAgents.contains (m.agent_id.getD "")) then
    .err "AGENT_NOT_PAIRED" "Agent not paired with this device"
  else if sendOk then
    .ackSent (m.request_id.getD "") (m.agent_id.getD "")
  else
    .err "AGENT_OFFLINE" "Agent is currently offline"

/-- C10: field presence on `chat.request` is a truthiness test, so a
frame in which `request_id`, `agent_id`, `session_id` or `text` is
present but empty is rejected with an `INVALID_MESSAGE` error frame by
both relays, and is neither routed nor acknowledged — an empty-text
message is never delivered to an agent. -/
theorem chat_request_empty_field_rejected
    (clientAgentId deviceId : String) (pairedAgents : List String)
    (sendOk : Bool) (m : ChatRequestMsg)
    (hempty : m.request_id = some "" ∨ m.agent_id = some "" ∨
      m.session_id = some "" ∨ m.text = some "") :
    ClientConnection.handleChatRequest clientAgentId deviceId m =
      .err { code := "INVALID_MESSAGE",
             message := "Missing required fields in chat.request" } ∧
    selfhostClientChatRequest pairedAgents sendOk m =
      .err "INVALID_MESSAGE"
        "Missing required fields: request_id, agent_id, session_id, text" := by
  have hguard : (!(truthy m.request_id) || !(truthy m.agent_id) ||
      !(truthy m.session_id) || !(truthy m.text)) = true := by
    rcases hempty with h | h | h | h <;> simp [truthy, h]
  constructor
  · unfold ClientConnection.handleChatRequest
    rw [if_pos hguard]
  · unfold selfhostClientChatRequest
    rw [if_pos hguard]

/-- Instantiation of the empty-field theorem: a `chat.request` whose
`text` is the empty string is rejected by both handlers. -/
theorem chat_request_empty_field_rejected_witness :
    ClientConnection.handleChatRequest "A1" "dev1"
        { request_id := some "r1", agent_id := some "A1",
          session_id := some "s1", text := some "" } =
      .err { code := "INVALID_MESSAGE",
             message := "Missing required fields in chat.request" } ∧
    selfhostClientChatRequest ["A1"] true
        { request_id := some "r1", agent_id := some "A1",
          session_id := some "s1", text := some "" } =
      .err "INVALID_MESSAGE"
        "Missing required fields: request_id, agent_id, session_id, text" := by
  exact chat_request_empty_field_rejected "A1" "dev1" ["A1"] true
    { request_id := some "r1", agent_id := some "A1",
      session_id := some "s1", text := some "" }
    (by simp)

/-- Constant `CONFIG.OFFLINE_QUEUE_MAX_MESSAGES` (self-hosted `config.ts`). -/
def OFFLINE_QUEUE_MAX_MESSAGES : Nat := 10

/-- Constant `CONFIG.OFFLINE_QUEUE_TTL_MS` — 60 seconds in milliseconds. -/
def OFFLINE_QUEUE_TTL_MS : Nat := 60 * 1000

/-- Constant `CONFIG.MESSAGE.QUEUE_SIZE` (Cloudflare `config.ts`). -/
def QUEUE_SIZE : Nat := 10

/-- An entry of a per-agent offline queue: payload, enqueue time in
milliseconds, delivery attempts so far. -/
structure QueuedMessage where
  message : String
  timestamp : Nat
  attempts : Nat
deriving Repr, DecidableEq

/-- Function `queueMessageForAgent` (self-hosted `ws/router.ts`): when the queue
is at capacity, `shift()` drops the oldest entry, then the new entry is
pushed; the function reports success to the caller in every case. -/
def queueMessageForAgent (queue : List QueuedMessage) (msg : String)
    (now : Nat) : List QueuedMessage :=
  let q := if OFFLINE_QUEUE_MAX_MESSAGES ≤ queue.length then queue.drop 1 else queue
  q ++ [{ message := msg, timestamp := now, attempts := 0 }]

/-- Function `cleanupExpiredMessages` (the 30-second sweep of `ws/router.ts`):
keep exactly the entries with `(now - timestamp) < TTL`. -/
def cleanupExpiredMessages (queue : List QueuedMessage) (now : Nat) :
    List QueuedMessage :=
  queue.filter (fun qm => now - qm.timestamp < OFFLINE_QUEUE_TTL_MS)

/-- The operations the self-hosted router ever performs on one agent's
offline queue: an enqueue toward the offline agent
(`queueMessageForAgent`) and the periodic 30-second sweep
(`cleanupExpiredMessages`).  The drain helper `processQueuedMessages`
in `ws/router.ts` is exported but has no caller anywhere in the
repository — the agent admission path in `ws/agent.ts` only installs
the registry entry, stamps last-seen and broadcasts presence — so
queued frames are never delivered in this relay and no drain
transition exists. -/
inductive QueueEvent where
  | enqueue (msg : String) (now : Nat)
  | sweep (now : Nat)
deriving Repr, DecidableEq

/-- One self-hosted router event applied to a queue. -/
def queueStep (q : List QueuedMessage) : QueueEvent → List QueuedMessage
  | .enqueue msg now => queueMessageForAgent q msg now
  | .sweep now => cleanupExpiredMessages q now

/-- Run a sequence of events from the empty queue (the queues start
empty on process start). -/
def queueRun (evs : List QueueEvent) : List QueuedMessage :=
  evs.foldl queueStep []

theorem queueStep_length_le (q : List QueuedMessage) (e : QueueEvent)
    (h : q.length ≤ OFFLINE_QUEUE_MAX_MESSAGES) :
    (queueStep q e).length ≤ OFFLINE_QUEUE_MAX_MESSAGES := by
  cases e with
  | enqueue msg now =>
    unfold queueStep queueMessageForAgent
    dsimp only
    by_cases hc : OFFLINE_QUEUE_MAX_MESSAGES ≤ q.length
    · rw [if_pos hc]
      simp only [List.length_append, List.length_drop, List.length_singleton]
      unfold OFFLINE_QUEUE_MAX_MESSAGES at *
      omega
    · rw [if_neg hc]
      simp only [List.length_append, List.length_singleton]
      unfold OFFLINE_QUEUE_MAX_MESSAGES at *
      omega
  | sweep now =>
    unfold queueStep cleanupExpiredMessages
    exact le_trans (List.length_filter_le _ _) h

theorem queueRun_aux_length (evs : List QueueEvent) :
    ∀ q : List QueuedMessage, q.length ≤ OFFLINE_QUEUE_MAX_MESSAGES →
    (evs.foldl queueStep q).length ≤ OFFLINE_QUEUE_MAX_MESSAGES := by
  induction evs with
  | nil => intro q h; exact h
  | cons e es ih =>
    intro q h
    exact ih _ (queueStep_length_le q e h)

/-- Constant `CONFIG.MESSAGE.QUEUE_TTL` (Cloudflare `config.ts`) — 60,
in seconds; the drain compares ages against `QUEUE_TTL * 1000`. -/
def QUEUE_TTL : Nat := 60

/-- Method `MessageRouter.processQueuedMessages` from the Cloudflare
relay: when the target (re)connects, the stored queue is filtered to
the entries younger than the TTL with fewer than 3 attempts, exactly
those are attempted for delivery, and the stored queue is then deleted.
Returns (stored queue afterwards, entries attempted for delivery). -/
def MessageRouter.processQueuedMessages (queue : List QueuedMessage)
    (now : Nat) : List QueuedMessage × List QueuedMessage :=
  let validMessages := queue.filter (fun qm =>
    decide (now - qm.timestamp < QUEUE_TTL * 1000) && decide (qm.attempts < 3))
  ([], validMessages)

/-- Function `sendToAgent` in the self-hosted `ws/router.ts`: deliver directly
when the agent is online, otherwise queue; the returned boolean is what
the client endpoint uses to acknowledge with `message_sent`, and the
queueing branch always reports success. -/
def sendToAgentRouter (agentOnline : Bool) (queue : List QueuedMessage)
    (msg : String) (now : Nat) : Bool × List QueuedMessage :=
  if agentOnline then (true, queue)
  else (true, queueMessageForAgent queue msg now)

/-- Method `MessageRouter.queueMessage` from the Cloudflare relay: a queue at
`CONFIG.MESSAGE.QUEUE_SIZE` makes it answer 503 `Queue full`, storing
nothing; below capacity it appends and answers `Queued`. -/
def MessageRouter.queueMessage (queue : List QueuedMessage) (msg : String)
    (now : Nat) : Nat × List QueuedMessage :=
  if QUEUE_SIZE ≤ queue.length then (503, queue)
  else (200, queue ++ [{ message := msg, timestamp := now, attempts := 0 }])

/-- C5: every agent's offline queue is bounded by 10 everywhere, and no
queued entry older than the 60 s TTL is ever delivered.  In the
self-hosted router the only queue operations are the enqueue and the
periodic sweep (the drain helper has no caller, so queued entries are
never delivered there at all, and expired ones are discarded by the
sweep, which keeps exactly the entries younger than the TTL); in the
Cloudflare relay the enqueue refuses beyond the bound and the drain at
admission attempts only entries younger than the TTL, discarding the
rest with the deleted queue. -/
theorem queue_bound_and_ttl_delivery :
    (∀ evs : List QueueEvent,
      (queueRun evs).length ≤ OFFLINE_QUEUE_MAX_MESSAGES) ∧
    (∀ (q : List QueuedMessage) (now : Nat) (qm : QueuedMessage),
      qm ∈ cleanupExpiredMessages q now ↔
        qm ∈ q ∧ now - qm.timestamp < OFFLINE_QUEUE_TTL_MS) ∧
    (∀ (q : List QueuedMessage) (msg : String) (now : Nat),
      q.length ≤ QUEUE_SIZE →
        ((MessageRouter.queueMessage q msg now).2).length ≤ QUEUE_SIZE) ∧
    (∀ (q : List QueuedMessage) (now : Nat),
      ∀ qm ∈ (MessageRouter.processQueuedMessages q now).2,
        now - qm.timestamp < QUEUE_TTL * 1000) ∧
    (∀ (q : List QueuedMessage) (now : Nat),
      (MessageRouter.processQueuedMessages q now).1 = []) := by
  refine ⟨?_, ?_, ?_, ?_, fun q now => rfl⟩
  · intro evs
    exact queueRun_aux_length evs [] (by simp)
  · intro q now qm
    simp [cleanupExpiredMessages, List.mem_filter]
  · intro q msg now hle
    unfold MessageRouter.queueMessage
    by_cases hc : QUEUE_SIZE ≤ q.length
    · rw [if_pos hc]
      exact hle
    · rw [if_neg hc]
      simp only [List.length_append, List.length_singleton]
      omega
  · intro q now qm hmem
    unfold MessageRouter.processQueuedMessages at hmem
    dsimp only at hmem
    have hp := List.of_mem_filter hmem
    simp only [Bool.and_eq_true, decide_eq_true_eq] at hp
    exact hp.1

/-- A concrete full queue of ten entries. -/
def fullQueueTen : List QueuedMessage :=
  (List.range 10).map (fun i => { message := toString i, timestamp := i, attempts := 0 })

/-- C6 counterexample: on the Cloudflare relay an enqueue toward a full
queue does not displace the oldest entry — `MessageRouter.queueMessage`
answers 503 `Queue full`, the queue is unchanged and the newest message
is lost, contradicting the claimed universal drop-oldest policy. -/
theorem queue_full_drop_oldest_counterexample :
    MessageRouter.queueMessage fullQueueTen "newest" 99 = (503, fullQueueTen) ∧
    (¬ ∃ qm ∈ (MessageRouter.queueMessage fullQueueTen "newest" 99).2,
      qm.message = "newest") := by
  constructor
  · rfl
  · decide

/-- C6 as it holds on the code: the self-hosted router's insertion at a
full queue drops the oldest entry and appends the new one, keeping the
length at the bound, and `sendToAgent` reports success so the sender is
acknowledged with `message_sent`; the Cloudflare MessageRouter instead
rejects the new message with 503 `Queue full`, leaving the queue
unchanged. -/
theorem queue_full_insertion_policy (q : List QueuedMessage) (msg : String)
    (now : Nat) (hfull : q.length = OFFLINE_QUEUE_MAX_MESSAGES) :
    queueMessageForAgent q msg now =
      q.drop 1 ++ [{ message := msg, timestamp := now, attempts := 0 }] ∧
    (queueMessageForAgent q msg now).length = OFFLINE_QUEUE_MAX_MESSAGES ∧
    sendToAgentRouter false q msg now = (true, queueMessageForAgent q msg now) ∧
    MessageRouter.queueMessage q msg now = (503, q) := by
  refine ⟨?_, ?_, ?_, ?_⟩
  · unfold queueMessageForAgent
    rw [if_pos (le_of_eq hfull.symm)]
  · unfold queueMessageForAgent
    rw [if_pos (le_of_eq hfull.symm)]
    simp only [List.length_append, List.length_drop, List.length_singleton, hfull]
    unfold OFFLINE_QUEUE_MAX_MESSAGES
    omega
  · unfold sendToAgentRouter
    rw [if_neg (by simp)]
  · unfold MessageRouter.queueMessage
    rw [if_pos]
    rw [hfull]
    unfold OFFLINE_QUEUE_MAX_MESSAGES QUEUE_SIZE
    omega

/-- Instantiation of the insertion-policy theorem on the concrete full
queue: the oldest entry `0` is displaced and the length stays 10. -/
theorem queue_full_insertion_policy_witness :
    queueMessageForAgent fullQueueTen "newest" 99 =
      fullQueueTen.drop 1 ++ [{ message := "newest", timestamp := 99, attempts := 0 }] ∧
    (queueMessageForAgent fullQueueTen "newest" 99).length =
      OFFLINE_QUEUE_MAX_MESSAGES := by
  have h := queue_full_insertion_policy fullQueueTen "newest" 99 (by decide)
  exact ⟨h.1, h.2.1⟩

/-- A live agent connection handle in the self-hosted relay
(`ws/agent.ts`): the socket's identity, the agent id, and the
connection time. -/
structure AgentHandle where
  sockId : Nat
  agentId : String
  connectedAt : Nat
deriving Repr, DecidableEq

/-- Admission of a verified agent connection in `ws/agent.ts`:
`agentConnections.set(agent.id, agentConnection)` replaces the Map
entry for that agent id.  The registry is the association list of the
Map; the second component records every socket-close instruction
`(sockId, closeCode)` the admission issues — the source issues none. -/
def registerAgent (reg : List (String × AgentHandle)) (h : AgentHandle) :
    (List (String × AgentHandle)) × List (Nat × Nat) :=
  ((reg.filter (fun e => !(e.1 == h.agentId))) ++ [(h.agentId, h)], [])

/-- The socket `close` handler of `ws/agent.ts`:
`agentConnections.delete(agentConnection.agentId)` — deletion is keyed
by the closing handle's agent id, removing whichever handle is
currently registered under it. -/
def onAgentSocketClose (reg : List (String × AgentHandle)) (h : AgentHandle) :
    List (String × AgentHandle) :=
  reg.filter (fun e => !(e.1 == h.agentId))

/-- C2 counterexample: admitting a second verified connection for agent
`A` over a live handle (socket 1) issues no close instruction at all —
in particular the old socket is not closed with any code, so no
`CONFLICT` eviction happens. -/
theorem agent_conflict_eviction_counterexample :
    (registerAgent [("A", { sockId := 1, agentId := "A", connectedAt := 0 })]
        { sockId := 2, agentId := "A", connectedAt := 5 }).2 = [] ∧
    (¬ ∃ c, (1, c) ∈ (registerAgent
        [("A", { sockId := 1, agentId := "A", connectedAt := 0 })]
        { sockId := 2, agentId := "A", connectedAt := 5 }).2) := by
  exact ⟨rfl, by simp [registerAgent]⟩

theorem filter_key_count_le_one (l : List (String × AgentHandle))
    (hk : (l.map Prod.fst).Nodup) (aid : String) :
    (l.filter (fun e => e.1 == aid)).length ≤ 1 := by
  induction l with
  | nil => simp
  | cons x xs ih =>
    simp only [List.map_cons, List.nodup_cons] at hk
    by_cases hx : x.1 = aid
    · have hnone : xs.filter (fun e => e.1 == aid) = [] := by
        apply List.filter_eq_nil_iff.2
        intro e hmem
        simp only [beq_iff_eq]
        intro he
        apply hk.1
        rw [hx, ← he]
        exact List.mem_map_of_mem Prod.fst hmem
      simp [List.filter_cons, hx, hnone]
    · simp only [List.filter_cons, beq_iff_eq, hx, if_neg]
      simpa using ih hk.2

/-- C2 as it holds on the code: the registry is a `Map` keyed by agent
id — with distinct keys every agent id has at most one handle, and
admission installs the new handle as the agent's only entry — but the
admission issues no socket close (there is no `CONFLICT` eviction of
the prior handle), and when the replaced socket later closes, its close
handler deletes by agent id and so removes the agent's current registry
entry, the freshly admitted handle. -/
theorem agent_registry_at_most_one
    (reg : List (String × AgentHandle)) (h : AgentHandle)
    (hkeys : (reg.map Prod.fst).Nodup) :
    (((registerAgent reg h).1.map Prod.fst).Nodup) ∧
    (∀ aid, ((registerAgent reg h).1.filter (fun e => e.1 == aid)).length ≤ 1) ∧
    ((registerAgent reg h).1.filter (fun e => e.1 == h.agentId) = [(h.agentId, h)]) ∧
    ((registerAgent reg h).2 = []) ∧
    (∀ hOld : AgentHandle, hOld.agentId = h.agentId →
      (onAgentSocketClose (registerAgent reg h).1 hOld).filter
        (fun e => e.1 == h.agentId) = []) := by
  have hnd : ((reg.filter (fun e => !(e.1 == h.agentId))).map Prod.fst).Nodup :=
    List.Nodup.sublist (List.Sublist.map Prod.fst (List.filter_sublist reg)) hkeys
  have hnotin : h.agentId ∉ (reg.filter (fun e => !(e.1 == h.agentId))).map Prod.fst := by
    intro hmem
    obtain ⟨e, he, heq⟩ := List.mem_map.1 hmem
    have hp := List.of_mem_filter he
    simp [heq] at hp
  have hnodup : (((registerAgent reg h).1.map Prod.fst).Nodup) := by
    unfold registerAgent
    dsimp only
    rw [List.map_append]
    simp [List.nodup_append, hnd, hnotin]
  refine ⟨hnodup, fun aid => filter_key_count_le_one _ hnodup aid, ?_, rfl, ?_⟩
  · unfold registerAgent
    dsimp only
    rw [List.filter_append, List.filter_filter]
    simp
  · intro hOld hsame
    unfold onAgentSocketClose registerAgent
    dsimp only
    simp [List.filter_append, List.filter_filter, hsame]

/-- Instantiation of the registry theorem: after admitting socket 2 for
agent `A` over socket 1's live handle, agent `A`'s only entry is the
new handle, no close instruction was issued, and the stale socket's
close event then leaves `A` with no entry at all. -/
theorem agent_registry_at_most_one_witness :
    ((registerAgent [("A", { sockId := 1, agentId := "A", connectedAt := 0 })]
        { sockId := 2, agentId := "A", connectedAt := 5 }).1.filter
      (fun e => e.1 == "A")) =
      [("A", { sockId := 2, agentId := "A", connectedAt := 5 })] ∧
    ((onAgentSocketClose
        (registerAgent [("A", { sockId := 1, agentId := "A", connectedAt := 0 })]
          { sockId := 2, agentId := "A", connectedAt := 5 }).1
        { sockId := 1, agentId := "A", connectedAt := 0 }).filter
      (fun e => e.1 == "A")) = [] := by
  have h := agent_registry_at_most_one
    [("A", { sockId := 1, agentId := "A", connectedAt := 0 })]
    { sockId := 2, agentId := "A", connectedAt := 5 } (by simp)
  exact ⟨h.2.2.1, h.2.2.2.2 { sockId := 1, agentId := "A", connectedAt := 0 } rfl⟩

/-- Row of the self-hosted `pairings` table (`schema.sql`): an
auto-increment id, the agent and device ids (a pending code is created
with `device_id = ""`), the optional code and expiry, a `status`
defaulting to `pending`, and the completion time; the table carries
`UNIQUE (agent_id, device_id)` and a unique index on `pairing_code`. -/
structure SHPairing where
  id : Nat
  agent_id : String
  device_id : String
  pairing_code : Option String
  expires_at : Option Nat
  status : String
  completed_at : Option Nat
deriving Repr, DecidableEq

/-- Row of the self-hosted `agents` table (the per-agent secret is
stored in the row, unique). -/
structure SHAgent where
  id : String
  display_name : String
  agent_secret : String
deriving Repr, DecidableEq

/-- The slice of the self-hosted store the pairing routes use. -/
structure SHState where
  agents : List SHAgent
  pairings : List SHPairing
  devices : List (String × String)
deriving Repr, DecidableEq

/-- Method `getPairingByCode` of the self-hosted DatabaseManager:
`SELECT * FROM pairings WHERE pairing_code = ?`. -/
def getPairingByCode (ps : List SHPairing) (code : String) : Option SHPairing :=
  ps.find? (fun p => p.pairing_code == some code)

/-- Method `completePairing` of the self-hosted DatabaseManager:
`UPDATE pairings SET status = 'completed', device_id = ?,
completed_at = ? WHERE id = ?` — the row is updated in place, never
deleted. -/
def completePairing (ps : List SHPairing) (pairingId : Nat) (deviceId : String)
    (now : Nat) : List SHPairing :=
  ps.map (fun p => if p.id == pairingId then
    { p with status := "completed", device_id := deviceId,
             completed_at := some now }
  else p)

/-- Method `createPairing` of the self-hosted DatabaseManager: a bare
`INSERT INTO pairings ...` with no prior delete; the insert throws when
it violates `UNIQUE (agent_id, device_id)` or the unique code index
(`none` here — the route's catch answers 500). -/
def createPairing (ps : List SHPairing) (newId : Nat) (agentId deviceId : String)
    (code : Option String) (expiresAt : Option Nat) :
    Option (List SHPairing) :=
  if ps.any (fun p => p.agent_id == agentId && p.device_id == deviceId) then none
  else if (match code with
           | some c => ps.any (fun p => p.pairing_code == some c)
           | none => false) then none
  else some (ps ++ [{ id := newId, agent_id := agentId, device_id := deviceId,
                      pairing_code := code, expires_at := expiresAt,
                      status := "pending", completed_at := none }])

/-- Outcome of the self-hosted `POST /api/pair/start`. -/
inductive SHPairStartOutcome where
  | badRequest
  | unauthorized
  | internalError
  | ok (pairing_code : String) (expires_at : Nat)
deriving Repr, DecidableEq

/-- The self-hosted `/api/pair/start` handler (`routes/pair.ts`): look
the agent up by secret, creating it when absent and a display name was
given (mismatching id → 401); generate a code and `createPairing` with
`device_id = ""` and status `pending` — a bare insert with no delete of
the agent's prior codes; an insert failure is caught and answered
500. -/
def selfhostPairStart (s : SHState) (agent_id agent_secret : String)
    (display_name : Option String) (newCode : String) (newId : Nat)
    (now : Nat) : SHPairStartOutcome × SHState :=
  match s.agents.find? (fun a => a.agent_secret == agent_secret) with
  | none =>
    match display_name with
    | none => (.badRequest, s)
    | some dn =>
      let s1 := { s with agents := s.agents ++
        [{ id := agent_id, display_name := dn, agent_secret := agent_secret }] }
      match createPairing s1.pairings newId agent_id "" (some newCode)
          (some (now + 600)) with
      | none => (.internalError, s1)
      | some ps' => (.ok newCode (now + 600), { s1 with pairings := ps' })
  | some agent =>
    if !(agent.id == agent_id) then (.unauthorized, s)
    else
      match createPairing s.pairings newId agent.id "" (some newCode)
          (some (now + 600)) with
      | none => (.internalError, s)
      | some ps' => (.ok newCode (now + 600), { s with pairings := ps' })

/-- Outcome of the self-hosted `POST /api/pair/complete`. -/
inductive SHPairCompleteOutcome where
  | invalidCode
  | codeExpired
  | codeUsed
  | internalError
  | ok (agent_id device_id : String)
deriving Repr, DecidableEq

/-- The self-hosted `/api/pair/complete` handler (`routes/pair.ts`):
find the pairing by code; refuse when the (truthy) expiry is past or
the status is not `pending`; otherwise create the device, mark the
pairing completed through `completePairing` — the record is kept — and
issue the token pair.  There is no attempts counter in this schema. -/
def selfhostPairComplete (s : SHState)
    (pairing_code device_label deviceId : String) (now : Nat) :
    SHPairCompleteOutcome × SHState :=
  match getPairingByCode s.pairings pairing_code with
  | none => (.invalidCode, s)
  | some pairing =>
    if (match pairing.expires_at with
        | some e => !(e == 0) && decide (e < now)
        | none => false) then (.codeExpired, s)
    else if !(pairing.status == "pending") then (.codeUsed, s)
    else match s.agents.find? (fun a => a.id == pairing.agent_id) with
      | none => (.internalError, s)
      | some agent =>
        (.ok agent.id deviceId,
         { s with devices := s.devices ++ [(deviceId, device_label)],
                  pairings := completePairing s.pairings pairing.id deviceId now })

theorem getPairingByCode_completePairing (ps : List SHPairing) (pid : Nat)
    (dev : String) (now : Nat) (c : String) :
    getPairingByCode (completePairing ps pid dev now) c =
      (getPairingByCode ps c).map (fun p => if p.id == pid then
        { p with status := "completed", device_id := dev,
                 completed_at := some now }
      else p) := by
  unfold getPairingByCode completePairing
  have hfun : ((fun p : SHPairing => p.pairing_code == some c) ∘
      (fun p : SHPairing => if p.id == pid then
        { p with status := "completed", device_id := dev,
                 completed_at := some now }
      else p)) = (fun p : SHPairing => p.pairing_code == some c) := by
    funext p
    by_cases h : (p.id == pid) = true <;> simp [Function.comp, h]
  rw [List.find?_map, hfun]

theorem selfhostPairComplete_ok_state (s : SHState)
    (code lbl dev : String) (now : Nat) (a d : String) (s2 : SHState)
    (hrun : selfhostPairComplete s code lbl dev now = (.ok a d, s2)) :
    ∃ pairing, getPairingByCode s.pairings code = some pairing ∧
      pairing.status = "pending" ∧
      s2.pairings = completePairing s.pairings pairing.id dev now := by
  unfold selfhostPairComplete at hrun
  cases hfind : getPairingByCode s.pairings code with
  | none => rw [hfind] at hrun; simp at hrun
  | some pairing =>
    rw [hfind] at hrun
    dsimp only at hrun
    cases hexp : (match pairing.expires_at with
        | some e => !(e == 0) && decide (e < now)
        | none => false) with
    | true => simp only [hexp] at hrun; simp at hrun
    | false =>
      simp only [hexp, Bool.false_eq_true, if_false] at hrun
      by_cases hst : (pairing.status == "pending") = true
      · rw [if_neg (by simp [hst])] at hrun
        cases hag : s.agents.find? (fun ag => ag.id == pairing.agent_id) with
        | none => rw [hag] at hrun; simp at hrun
        | some agent =>
          rw [hag] at hrun
          dsimp only at hrun
          have hs2 := congrArg Prod.snd hrun
          dsimp only at hs2
          exact ⟨pairing, rfl, by simpa using hst, by rw [← hs2]⟩
      · have hstf : (pairing.status == "pending") = false :=
          Bool.eq_false_iff.mpr hst
        rw [if_pos (by simp [hstf])] at hrun
        simp at hrun

/-- C7 counterexample: on the self-hosted relay a successful
consumption does not delete the pairing record.  Consuming the valid
pending code `CODE1` succeeds, and afterwards
`SELECT * FROM pairings WHERE pairing_code = 'CODE1'` still returns the
row — updated to status `completed` — contradicting the claim that the
record is deleted on successful consumption.  (The self-hosted schema
also has no attempts counter at all.) -/
theorem pairing_record_not_deleted_counterexample :
    (selfhostPairComplete
        { agents := [{ id := "A1", display_name := "One", agent_secret := "sec" }],
          pairings := [{ id := 1, agent_id := "A1", device_id := "",
                         pairing_code := some "CODE1", expires_at := some 600,
                         status := "pending", completed_at := none }],
          devices := [] } "CODE1" "work" "d1" 10).1 =
      SHPairCompleteOutcome.ok "A1" "d1" ∧
    getPairingByCode ((selfhostPairComplete
        { agents := [{ id := "A1", display_name := "One", agent_secret := "sec" }],
          pairings := [{ id := 1, agent_id := "A1", device_id := "",
                         pairing_code := some "CODE1", expires_at := some 600,
                         status := "pending", completed_at := none }],
          devices := [] } "CODE1" "work" "d1" 10).2).pairings "CODE1" =
      some { id := 1, agent_id := "A1", device_id := "d1",
             pairing_code := some "CODE1", expires_at := some 600,
             status := "completed", completed_at := some 10 } := by
  exact ⟨rfl, rfl⟩

/-- C7 as it holds on the code: the Cloudflare pair-complete refuses
consumption — leaving the store untouched, issuing no tokens and
creating no device — when every row for the code is expired or the
found row's attempts counter has reached `MAX_ATTEMPTS`, and a
successful consumption deletes the pairing row so a second presentation
is refused as invalid.  The self-hosted pair-complete keeps no attempts
counter; it refuses codes past their (truthy) expiry, and a successful
consumption marks the record `completed` instead of deleting it — a
second presentation of the same code is still refused, as used or as
expired. -/
theorem pairing_code_consumption_both_relays
    (s : D1State) (account account2 : Option AccountRow)
    (code device_label dl2 deviceId dev2 rTok rt2 rHash rh2 : String)
    (now now2 : Nat)
    (sh : SHState) (shCode shLabel shLabel2 shDev shDev2 : String) :
    ((∀ q ∈ s.pairings, q.code = code → q.expires_at ≤ now) →
      pairComplete s account code device_label deviceId rTok rHash true now =
        (.invalidCode, s)) ∧
    (∀ p a, findPairingJoinAgent s.pairings s.agents code now = some (p, a) →
      MAX_ATTEMPTS ≤ p.attempts →
      pairComplete s account code device_label deviceId rTok rHash true now =
        (.tooManyAttempts, s)) ∧
    (∀ resp s', pairComplete s account code device_label deviceId rTok rHash true now =
        (.ok resp, s') →
      pairComplete s' account2 code dl2 dev2 rt2 rh2 true now2 =
        (.invalidCode, s')) ∧
    (∀ p e, getPairingByCode sh.pairings shCode = some p → p.expires_at = some e →
      e ≠ 0 → e < now →
      selfhostPairComplete sh shCode shLabel shDev now = (.codeExpired, sh)) ∧
    (∀ a d sh2, selfhostPairComplete sh shCode shLabel shDev now = (.ok a d, sh2) →
      (selfhostPairComplete sh2 shCode shLabel2 shDev2 now2 = (.codeUsed, sh2) ∨
       selfhostPairComplete sh2 shCode shLabel2 shDev2 now2 = (.codeExpired, sh2))) := by
  obtain ⟨h1, h2, h3⟩ := pairComplete_refusal_and_single_consumption s account account2
    code device_label dl2 deviceId dev2 rTok rt2 rHash rh2 now now2
  refine ⟨h1, h2, h3, ?_, ?_⟩
  · intro p e hfind hpe he0 hlt
    unfold selfhostPairComplete
    rw [hfind]
    dsimp only
    have hcond : (match p.expires_at with
        | some e => !(e == 0) && decide (e < now)
        | none => false) = true := by
      rw [hpe]
      simp [he0, hlt]
    rw [if_pos hcond]
  · intro a d sh2 hrun
    obtain ⟨pairing, hfind, hpend, hp2⟩ :=
      selfhostPairComplete_ok_state sh shCode shLabel shDev now a d sh2 hrun
    have hfind2 : getPairingByCode sh2.pairings shCode =
        some { id := pairing.id, agent_id := pairing.agent_id,
               device_id := shDev, pairing_code := pairing.pairing_code,
               expires_at := pairing.expires_at, status := "completed",
               completed_at := some now } := by
      rw [hp2, getPairingByCode_completePairing, hfind]
      simp
    unfold selfhostPairComplete
    rw [hfind2]
    dsimp only
    cases hexp : (match pairing.expires_at with
        | some e => !(e == 0) && decide (e < now2)
        | none => false) with
    | true => simp
    | false => simp

/-- Instantiation of the consumption theorem on the self-hosted side:
consuming `CODE1` once succeeds, presenting it a second time is refused
as used with the store unchanged. -/
theorem pairing_code_consumption_both_relays_witness :
    selfhostPairComplete
        (selfhostPairComplete
          { agents := [{ id := "A1", display_name := "One", agent_secret := "sec" }],
            pairings := [{ id := 1, agent_id := "A1", device_id := "",
                           pairing_code := some "CODE1", expires_at := some 600,
                           status := "pending", completed_at := none }],
            devices := [] } "CODE1" "work" "d1" 10).2
        "CODE1" "w2" "d2" 20 =
      (SHPairCompleteOutcome.codeUsed,
       (selfhostPairComplete
          { agents := [{ id := "A1", display_name := "One", agent_secret := "sec" }],
            pairings := [{ id := 1, agent_id := "A1", device_id := "",
                           pairing_code := some "CODE1", expires_at := some 600,
                           status := "pending", completed_at := none }],
            devices := [] } "CODE1" "work" "d1" 10).2) := by
  have h := (pairing_code_consumption_both_relays
    { agents := [], pairings := [], devices := [], refresh_tokens := [],
      account_agents := [] } none none
    "c" "l" "l2" "d" "d2" "t" "t2" "h" "h2" 10 20
    { agents := [{ id := "A1", display_name := "One", agent_secret := "sec" }],
      pairings := [{ id := 1, agent_id := "A1", device_id := "",
                     pairing_code := some "CODE1", expires_at := some 600,
                     status := "pending", completed_at := none }],
      devices := [] } "CODE1" "work" "w2" "d1" "d2").2.2.2.2
    "A1" "d1" _ rfl
  rcases h with h | h
  · exact h
  · exact absurd h (by decide)

/-- C8 counterexample: with a live pending code for agent `A1` already
stored, a second self-hosted pair/start for `A1` does not delete the
prior record: the bare insert collides on `UNIQUE (agent_id,
device_id)` (both rows would carry `device_id = ""`), the route's catch
answers 500, and the prior pairing row is still there, unchanged —
contradicting the claimed atomic delete-prior-then-insert. -/
theorem pair_start_no_delete_prior_counterexample :
    selfhostPairStart
        { agents := [{ id := "A1", display_name := "One", agent_secret := "sec" }],
          pairings := [{ id := 1, agent_id := "A1", device_id := "",
                         pairing_code := some "CODE1", expires_at := some 600,
                         status := "pending", completed_at := none }],
          devices := [] } "A1" "sec" none "CODE2" 2 50 =
      (SHPairStartOutcome.internalError,
       { agents := [{ id := "A1", display_name := "One", agent_secret := "sec" }],
         pairings := [{ id := 1, agent_id := "A1", device_id := "",
                        pairing_code := some "CODE1", expires_at := some 600,
                        status := "pending", completed_at := none }],
         devices := [] }) := by
  rfl

/-- C8 as it holds on the code: on the Cloudflare relay issuance runs
the delete-prior + insert batch in one transition, so afterwards the
agent's pairing rows are exactly the fresh one and other agents' rows
are untouched; the self-hosted issuance is a bare insert with no prior
delete, so while a pending code for the agent exists (a row with
`device_id = ""`), a second issuance fails the `UNIQUE (agent_id,
device_id)` constraint and the route answers 500 with the store
unchanged, leaving the prior code live. -/
theorem pair_start_issuance_both_relays
    (s : D1State) (agent_id display_name : String) (tenant : Option String)
    (secretHash code : String) (now : Nat)
    (sh : SHState) (ag : SHAgent) (newCode : String) (newId : Nat) (shNow : Nat)
    (hag : sh.agents.find? (fun a => a.agent_secret == ag.agent_secret) = some ag)
    (hprior : sh.pairings.any
      (fun p => p.agent_id == ag.id && p.device_id == "") = true) :
    ((((pairStart s agent_id display_name tenant secretHash code true true now).2).pairings.filter
        (fun p => p.agent_id == agent_id)) =
      [{ code := code, agent_id := agent_id,
         expires_at := now + CODE_TTL, attempts := 0 }]) ∧
    (∀ p ∈ ((pairStart s agent_id display_name tenant secretHash code true true now).2).pairings,
      p.agent_id ≠ agent_id → p ∈ s.pairings) ∧
    (selfhostPairStart sh ag.id ag.agent_secret none newCode newId shNow =
      (.internalError, sh)) := by
  obtain ⟨hcf1, hcf2⟩ := pairStart_at_most_one_live_code s agent_id display_name
    tenant secretHash code now
  refine ⟨hcf1, hcf2, ?_⟩
  unfold selfhostPairStart
  rw [hag]
  dsimp only
  rw [if_neg (by simp)]
  have hfail : createPairing sh.pairings newId ag.id "" (some newCode)
      (some (shNow + 600)) = none := by
    unfold createPairing
    rw [if_pos hprior]
  rw [hfail]

/-- Instantiation of the issuance theorem: the concrete second
self-hosted issuance for `A1` fails with 500 leaving the store
unchanged. -/
theorem pair_start_issuance_both_relays_witness :
    selfhostPairStart
        { agents := [{ id := "A2", display_name := "Two", agent_secret := "s2" }],
          pairings := [{ id := 7, agent_id := "A2", device_id := "",
                         pairing_code := some "OLDCODE", expires_at := some 900,
                         status := "pending", completed_at := none }],
          devices := [] } "A2" "s2" none "NEWCODE" 8 100 =
      (SHPairStartOutcome.internalError,
       { agents := [{ id := "A2", display_name := "Two", agent_secret := "s2" }],
         pairings := [{ id := 7, agent_id := "A2", device_id := "",
                        pairing_code := some "OLDCODE", expires_at := some 900,
                        status := "pending", completed_at := none }],
         devices := [] }) := by
  exact (pair_start_issuance_both_relays
    { agents := [], pairings := [], devices := [], refresh_tokens := [],
      account_agents := [] } "A" "dn" none "sh" "c" 0
    { agents := [{ id := "A2", display_name := "Two", agent_secret := "s2" }],
      pairings := [{ id := 7, agent_id := "A2", device_id := "",
                     pairing_code := some "OLDCODE", expires_at := some 900,
                     status := "pending", completed_at := none }],
      devices := [] }
    { id := "A2", display_name := "Two", agent_secret := "s2" }
    "NEWCODE" 8 100 (by rfl) (by decide)).2.2
